import Mathlib

/-!
Verification of the model-provider selectors in
`src/store/global/slices/settings/selectors/modelProvider.ts`.

The file under verification is a set of pure selector functions over a
global store snapshot.  We embed the store shape, the selector functions
and the JavaScript truthiness / nullish-coalescing conventions they rely
on, and prove the stated properties about the merged, enabled and
filtered provider/model views.
-/

set_option maxHeartbeats 1000000

/-- Metadata describing one chat model.  Optional fields model JS fields
that may be `undefined` on a card. -/
structure ChatModelCard where
  id : String
  enabled : Option Bool := none
  functionCall : Option Bool := none
  vision : Option Bool := none
  files : Option Bool := none
  tokens : Option Nat := none
  isCustom : Option Bool := none
deriving DecidableEq

/-- A provider card: a named source of chat models.  The `enabled` field is
optional on static catalog cards and is always set by `modelProviderList`. -/
structure ModelProviderCard where
  id : String
  chatModels : List ChatModelCard
  enabled : Option Bool := none
deriving DecidableEq

/-- Per-provider server-side configuration (`ServerModelProviderConfig`). -/
structure ServerModelProviderConfig where
  serverModelCards : Option (List ChatModelCard) := none
deriving DecidableEq

/-- Modelled from the spec: the per-provider user settings object returned by
`getProviderConfigById` in the settings selectors (that file is an external
collaborator, not part of the excerpt).  It carries the user-customized
cards, the remote-fetched cards, the enabled flag and the enabled-model id
list; absent fields are `none`. -/
structure ProviderConfig where
  enabled : Option Bool := none
  remoteModelCards : Option (List ChatModelCard) := none
  customModelCards : Option (List ChatModelCard) := none
  enabledModels : Option (List (Option String)) := none
deriving DecidableEq

/-- The `serverConfig` slice of the store: `languageModel` is an optional
map from provider key to server provider config, modelled as an
association list. -/
structure ServerConfig where
  languageModel : Option (List (String × ServerModelProviderConfig)) := none
deriving DecidableEq

/-- Modelled from the spec: the persisted user settings snapshot returned by
`currentSettings` (settings materialization is an external collaborator).
`languageModel` maps provider keys to per-provider configs. -/
structure Settings where
  languageModel : Option (List (String × ProviderConfig)) := none
deriving DecidableEq

/-- The global store snapshot the selectors read. -/
structure GlobalStore where
  serverConfig : ServerConfig
  settings : Settings
deriving DecidableEq

/-- Modelled from the spec: the static provider/model catalog
(`@/config/modelProviders`), an external collaborator owning the built-in
default cards.  It is kept abstract: one card per imported provider. -/
structure Catalog where
  OpenAIProviderCard : ModelProviderCard
  AzureProviderCard : ModelProviderCard
  OllamaProviderCard : ModelProviderCard
  AnthropicProviderCard : ModelProviderCard
  GoogleProviderCard : ModelProviderCard
  OpenRouterProviderCard : ModelProviderCard
  TogetherAIProviderCard : ModelProviderCard
  BedrockProviderCard : ModelProviderCard
  PerplexityProviderCard : ModelProviderCard
  MistralProviderCard : ModelProviderCard
  GroqProviderCard : ModelProviderCard
  MoonshotProviderCard : ModelProviderCard
  ZeroOneProviderCard : ModelProviderCard
  ZhiPuProviderCard : ModelProviderCard
deriving DecidableEq

/-- JS truthiness of a `boolean | undefined` value. -/
def jsTruthy : Option Bool → Bool
  | some b => b
  | none => false

/-- Does the character sequence `hay` start with `needle`? -/
def startsWithSeq : List Char → List Char → Bool
  | [], _ => true
  | _ :: _, [] => false
  | a :: as, b :: bs => (a == b) && startsWithSeq as bs

/-- Does the character sequence contain `needle` as a contiguous run? -/
def containsSeq (needle : List Char) : List Char → Bool
  | [] => startsWithSeq needle []
  | b :: bs => startsWithSeq needle (b :: bs) || containsSeq needle bs

/-- JS `String.prototype.includes`. -/
def jsIncludes (hay needle : String) : Bool :=
  containsSeq needle.toList hay.toList

/-- Keep-first de-duplication by `id` over cards not already seen:
the worker behind lodash `uniqBy(_, 'id')`. -/
def uniqByIdAux : List String → List ChatModelCard → List ChatModelCard
  | _, [] => []
  | seen, c :: cs =>
    if c.id ∈ seen then uniqByIdAux seen cs
    else c :: uniqByIdAux (c.id :: seen) cs

/-- lodash `uniqBy(list, 'id')`: keeps the first card for each id, in order. -/
def uniqById (l : List ChatModelCard) : List ChatModelCard :=
  uniqByIdAux [] l

/-- Modelled from the spec: `currentSettings` of the settings selectors
(external collaborator) — the current user settings snapshot. -/
def currentSettings (s : GlobalStore) : Settings :=
  s.settings

/-- Modelled from the spec: `getProviderConfigById` of the settings
selectors (external collaborator) — looks up the per-provider user config. -/
def getProviderConfigById (provider : String) (s : GlobalStore) : Option ProviderConfig :=
  (currentSettings s).languageModel.bind (fun lm => lm.lookup provider)

/-- Server-side model cards for a provider
(`serverProviderModelCards` in the source). -/
def serverProviderModelCards (provider : String) (s : GlobalStore) :
    Option (List ChatModelCard) :=
  match s.serverConfig.languageModel.bind (fun lm => lm.lookup provider) with
  | none => none
  | some config => config.serverModelCards

/-- Remote-fetched model cards for a provider
(`remoteProviderModelCards` in the source). -/
def remoteProviderModelCards (provider : String) (s : GlobalStore) :
    Option (List ChatModelCard) :=
  ((currentSettings s).languageModel.bind (fun lm => lm.lookup provider)).bind
    (fun cfg => cfg.remoteModelCards)

/-- Whether a provider is enabled in the user config
(`isProviderEnabled` in the source; `?.enabled || false`). -/
def isProviderEnabled (provider : String) (s : GlobalStore) : Bool :=
  jsTruthy ((getProviderConfigById provider s).bind (fun cfg => cfg.enabled))

/-- The local `mergeModels` closure of `defaultModelProviderList`:
server cards `??` remote cards `??` the given defaults. -/
def mergeModels (s : GlobalStore) (provider : String)
    (defaultChatModels : List ChatModelCard) : List ChatModelCard :=
  match serverProviderModelCards provider s with
  | some serverChatModels => serverChatModels
  | none =>
    match remoteProviderModelCards provider s with
    | some remoteChatModels => remoteChatModels
    | none => defaultChatModels

/-- `defaultModelProviderList`: the catalog cards in their fixed order, with
the merged chat models substituted for openai, azure, ollama, openrouter
and togetherai (azure merges onto an empty default list). -/
def defaultModelProviderList (c : Catalog) (s : GlobalStore) : List ModelProviderCard :=
  [ { c.OpenAIProviderCard with
      chatModels := mergeModels s "openai" c.OpenAIProviderCard.chatModels },
    { c.AzureProviderCard with chatModels := mergeModels s "azure" [] },
    { c.OllamaProviderCard with
      chatModels := mergeModels s "ollama" c.OllamaProviderCard.chatModels },
    c.AnthropicProviderCard,
    c.GoogleProviderCard,
    { c.OpenRouterProviderCard with
      chatModels := mergeModels s "openrouter" c.OpenRouterProviderCard.chatModels },
    { c.TogetherAIProviderCard with
      chatModels := mergeModels s "togetherai" c.TogetherAIProviderCard.chatModels },
    c.BedrockProviderCard,
    c.PerplexityProviderCard,
    c.MistralProviderCard,
    c.GroqProviderCard,
    c.MoonshotProviderCard,
    c.ZeroOneProviderCard,
    c.ZhiPuProviderCard ]

/-- `getDefaultModeProviderById` in the source. -/
def getDefaultModeProviderById (c : Catalog) (provider : String) (s : GlobalStore) :
    Option ModelProviderCard :=
  (defaultModelProviderList c s).find? (fun p => p.id == provider)

/-- Modelled from the spec: `filterEnabledModels` of the static catalog
module (external collaborator) — the ids of a provider card's enabled
models. -/
def filterEnabledModels (p : ModelProviderCard) : List String :=
  (p.chatModels.filter (fun m => jsTruthy m.enabled)).map (fun m => m.id)

/-- `getDefaultEnabledModelsById` in the source. -/
def getDefaultEnabledModelsById (c : Catalog) (provider : String) (s : GlobalStore) :
    Option (List String) :=
  (getDefaultModeProviderById c provider s).map filterEnabledModels

/-- `getDefaultModelCardById` in the source. -/
def getDefaultModelCardById (c : Catalog) (id : String) (s : GlobalStore) :
    Option ChatModelCard :=
  ((defaultModelProviderList c s).flatMap (fun i => i.chatModels)).find?
    (fun m => m.id == id)

/-- The user-customized cards of `getModelCardsById`:
`(config?.customModelCards || []).map(model => ({...model, isCustom: true}))`. -/
def customUserCards (provider : String) (s : GlobalStore) : List ChatModelCard :=
  (((getProviderConfigById provider s).bind (fun cfg => cfg.customModelCards)).getD []).map
    (fun model => { model with isCustom := some true })

/-- The built-in cards of `getModelCardsById`:
`getDefaultModeProviderById(provider)(s)?.chatModels || []`. -/
def builtinCards (c : Catalog) (provider : String) (s : GlobalStore) : List ChatModelCard :=
  ((getDefaultModeProviderById c provider s).map (fun p => p.chatModels)).getD []

/-- `getModelCardsById` in the source: user cards before built-in cards,
de-duplicated by id. -/
def getModelCardsById (c : Catalog) (provider : String) (s : GlobalStore) :
    List ChatModelCard :=
  uniqById (customUserCards provider s ++ builtinCards c provider s)

/-- Drop JS-falsy entries (`undefined`, `null`, the empty string) from an
enabled-models list: `enabledModels?.filter(Boolean)`. -/
def filterBooleanStrings (raw : List (Option String)) : List String :=
  raw.filterMap (fun o => o.bind (fun str => if str = "" then none else some str))

/-- `getEnableModelsById` in the source: `undefined` when the config defines
no enabledModels list, otherwise the list with falsy entries dropped. -/
def getEnableModelsById (provider : String) (s : GlobalStore) : Option (List String) :=
  match (getProviderConfigById provider s).bind (fun cfg => cfg.enabledModels) with
  | none => none
  | some raw => some (filterBooleanStrings raw)

/-- `modelProviderList` in the source. -/
def modelProviderList (c : Catalog) (s : GlobalStore) : List ModelProviderCard :=
  (defaultModelProviderList c s).map (fun list =>
    { list with
      chatModels := (getModelCardsById c list.id s).map (fun model =>
        match getEnableModelsById list.id s with
        | none => model
        | some models => { model with enabled := some (models.any (fun m => m == model.id)) }),
      enabled := some (isProviderEnabled list.id s) })

/-- `modelProviderListForModelSelect` in the source. -/
def modelProviderListForModelSelect (c : Catalog) (s : GlobalStore) :
    List ModelProviderCard :=
  ((modelProviderList c s).filter (fun p => jsTruthy p.enabled)).map (fun provider =>
    { provider with
      chatModels := provider.chatModels.filter (fun model => jsTruthy model.enabled) })

/-- `getModelCardById` in the source. -/
def getModelCardById (c : Catalog) (id : String) (s : GlobalStore) :
    Option ChatModelCard :=
  ((modelProviderList c s).flatMap (fun i => i.chatModels)).find? (fun m => m.id == id)

/-- `isModelEnabledFunctionCall` in the source: `?.functionCall || false`. -/
def isModelEnabledFunctionCall (c : Catalog) (id : String) (s : GlobalStore) : Bool :=
  jsTruthy ((getModelCardById c id s).bind (fun m => m.functionCall))

/-- `isModelEnabledVision` in the source:
`?.vision || id.includes('vision')`. -/
def isModelEnabledVision (c : Catalog) (id : String) (s : GlobalStore) : Bool :=
  jsTruthy ((getModelCardById c id s).bind (fun m => m.vision)) || jsIncludes id "vision"

/-- `isModelEnabledFiles` in the source: the raw `?.files` value. -/
def isModelEnabledFiles (c : Catalog) (id : String) (s : GlobalStore) : Option Bool :=
  (getModelCardById c id s).bind (fun m => m.files)

/-- `isModelEnabledUpload` in the source: JS `vision || files`, whose value
is `true` when vision holds and otherwise the raw files value. -/
def isModelEnabledUpload (c : Catalog) (id : String) (s : GlobalStore) : Option Bool :=
  if isModelEnabledVision c id s then some true else isModelEnabledFiles c id s

/-- `isModelHasMaxToken` in the source: `typeof tokens !== 'undefined'`. -/
def isModelHasMaxToken (c : Catalog) (id : String) (s : GlobalStore) : Bool :=
  ((getModelCardById c id s).bind (fun m => m.tokens)).isSome

/-- `modelMaxToken` in the source: `?.tokens || 0`. -/
def modelMaxToken (c : Catalog) (id : String) (s : GlobalStore) : Nat :=
  ((getModelCardById c id s).bind (fun m => m.tokens)).getD 0

/-- One call to a selector of the exported `modelProviderSelectors` record,
with its string argument when it takes one. -/
inductive SelectorCall where
  | defaultModelProviderList
  | getDefaultEnabledModelsById (provider : String)
  | getDefaultModelCardById (id : String)
  | getEnableModelsById (provider : String)
  | getModelCardById (id : String)
  | getModelCardsById (provider : String)
  | isModelEnabledFiles (id : String)
  | isModelEnabledFunctionCall (id : String)
  | isModelEnabledUpload (id : String)
  | isModelEnabledVision (id : String)
  | isModelHasMaxToken (id : String)
  | modelMaxToken (id : String)
  | modelProviderList
  | modelProviderListForModelSelect
deriving DecidableEq

/-- The value a selector call returns, tagged by its type. -/
inductive SelectorOutput where
  | providerList (l : List ModelProviderCard)
  | modelCards (l : List ChatModelCard)
  | optModelCard (m : Option ChatModelCard)
  | optIds (l : Option (List String))
  | flag (b : Bool)
  | optFlag (b : Option Bool)
  | count (n : Nat)
deriving DecidableEq

/-- The value returned by one selector call on a store snapshot. -/
def selectorOutput (c : Catalog) (call : SelectorCall) (s : GlobalStore) : SelectorOutput :=
  match call with
  | .defaultModelProviderList => .providerList (defaultModelProviderList c s)
  | .getDefaultEnabledModelsById provider => .optIds (getDefaultEnabledModelsById c provider s)
  | .getDefaultModelCardById id => .optModelCard (getDefaultModelCardById c id s)
  | .getEnableModelsById provider => .optIds (getEnableModelsById provider s)
  | .getModelCardById id => .optModelCard (getModelCardById c id s)
  | .getModelCardsById provider => .modelCards (getModelCardsById c provider s)
  | .isModelEnabledFiles id => .optFlag (isModelEnabledFiles c id s)
  | .isModelEnabledFunctionCall id => .flag (isModelEnabledFunctionCall c id s)
  | .isModelEnabledUpload id => .optFlag (isModelEnabledUpload c id s)
  | .isModelEnabledVision id => .flag (isModelEnabledVision c id s)
  | .isModelHasMaxToken id => .flag (isModelHasMaxToken c id s)
  | .modelMaxToken id => .count (modelMaxToken c id s)
  | .modelProviderList => .providerList (modelProviderList c s)
  | .modelProviderListForModelSelect => .providerList (modelProviderListForModelSelect c s)

/-- A selector call as a state transition: the source performs no
assignment to the store (it only builds new objects by spreading), so the
resulting store is the input store. -/
def applySelector (c : Catalog) (call : SelectorCall) (s : GlobalStore) :
    SelectorOutput × GlobalStore :=
  (selectorOutput c call s, s)

/-- The catalog cards in their order of appearance, with the built-in
default chat models each card carries. -/
def catalogCards (c : Catalog) : List ModelProviderCard :=
  [ c.OpenAIProviderCard, c.AzureProviderCard, c.OllamaProviderCard,
    c.AnthropicProviderCard, c.GoogleProviderCard, c.OpenRouterProviderCard,
    c.TogetherAIProviderCard, c.BedrockProviderCard, c.PerplexityProviderCard,
    c.MistralProviderCard, c.GroqProviderCard, c.MoonshotProviderCard,
    c.ZeroOneProviderCard, c.ZhiPuProviderCard ]

/-- The built-in default chat models for a provider id: the chat models of
the catalog card carrying that id (empty when no card does). -/
def defaultChatModelsOf (c : Catalog) (provider : String) : List ChatModelCard :=
  (((catalogCards c).find? (fun p => p.id == provider)).map (fun p => p.chatModels)).getD []

/-- The provider keys whose catalog entry is merged with server/remote
cards by `defaultModelProviderList`. -/
def mergedProviderIds : List String :=
  ["openai", "azure", "ollama", "openrouter", "togetherai"]

/-- The catalog carries each provider card under its canonical provider id. -/
def WellFormedCatalog (c : Catalog) : Prop :=
  c.OpenAIProviderCard.id = "openai" ∧
  c.AzureProviderCard.id = "azure" ∧
  c.OllamaProviderCard.id = "ollama" ∧
  c.AnthropicProviderCard.id = "anthropic" ∧
  c.GoogleProviderCard.id = "google" ∧
  c.OpenRouterProviderCard.id = "openrouter" ∧
  c.TogetherAIProviderCard.id = "togetherai" ∧
  c.BedrockProviderCard.id = "bedrock" ∧
  c.PerplexityProviderCard.id = "perplexity" ∧
  c.MistralProviderCard.id = "mistral" ∧
  c.GroqProviderCard.id = "groq" ∧
  c.MoonshotProviderCard.id = "moonshot" ∧
  c.ZeroOneProviderCard.id = "zeroone" ∧
  c.ZhiPuProviderCard.id = "zhipu"

instance : DecidablePred WellFormedCatalog := fun c => by
  unfold WellFormedCatalog; infer_instance

/-- The claimed three-way merge rule at one provider entry of the computed
view: its chat models are the server cards when present, else the remote
cards when present, else the built-in default cards of that provider. -/
def MergeRuleClaim (c : Catalog) (s : GlobalStore) (p : ModelProviderCard) : Prop :=
  p.chatModels =
    (match serverProviderModelCards p.id s with
     | some serverCards => serverCards
     | none =>
       match remoteProviderModelCards p.id s with
       | some remoteCards => remoteCards
       | none => defaultChatModelsOf c p.id)

instance (c : Catalog) (s : GlobalStore) (p : ModelProviderCard) :
    Decidable (MergeRuleClaim c s p) := by
  unfold MergeRuleClaim; infer_instance

/-- A minimal provider card used in concrete test states. -/
def mkCard (id : String) : ModelProviderCard :=
  { id := id, chatModels := [] }

/-- A concrete well-formed catalog used by witnesses and counterexamples. -/
def testCatalog : Catalog :=
  { OpenAIProviderCard :=
      { id := "openai",
        chatModels := [ { id := "gpt-4", enabled := some true, functionCall := some true,
                          tokens := some 128000 },
                        { id := "gpt-3.5", enabled := some false } ] },
    AzureProviderCard := mkCard "azure",
    OllamaProviderCard := mkCard "ollama",
    AnthropicProviderCard :=
      { id := "anthropic",
        chatModels := [ { id := "claude-3", enabled := some true, vision := some true } ] },
    GoogleProviderCard := mkCard "google",
    OpenRouterProviderCard := mkCard "openrouter",
    TogetherAIProviderCard := mkCard "togetherai",
    BedrockProviderCard := mkCard "bedrock",
    PerplexityProviderCard := mkCard "perplexity",
    MistralProviderCard := mkCard "mistral",
    GroqProviderCard := mkCard "groq",
    MoonshotProviderCard := mkCard "moonshot",
    ZeroOneProviderCard := mkCard "zeroone",
    ZhiPuProviderCard := mkCard "zhipu" }

/-- A store with neither server config nor user settings materialized. -/
def emptyStore : GlobalStore :=
  { serverConfig := { languageModel := none }, settings := { languageModel := none } }

/-- A store whose server config supplies model cards for the anthropic
provider (which `defaultModelProviderList` never merges). -/
def serverAnthropicStore : GlobalStore :=
  { serverConfig :=
      { languageModel :=
          some [("anthropic", { serverModelCards := some [{ id := "claude-server" }] })] },
    settings := { languageModel := none } }

/-- A store with a user config for openai: provider enabled, one custom
card colliding with a built-in id plus a fresh one, and an enabledModels
list containing a falsy entry. -/
def userOpenAIStore : GlobalStore :=
  { serverConfig := { languageModel := none },
    settings :=
      { languageModel :=
          some [("openai",
            { enabled := some true,
              customModelCards := some [ { id := "gpt-4", tokens := some 32000 },
                                         { id := "my-model", vision := some true } ],
              enabledModels := some [some "gpt-4", none, some "", some "my-model"] })] } }

/-- An entry of the openai row of `modelProviderList` on `userOpenAIStore`:
custom cards first, enabled flags recomputed from the enabledModels list. -/
def openaiProcessedEntry : ModelProviderCard :=
  { id := "openai", enabled := some true,
    chatModels :=
      [ { id := "gpt-4", tokens := some 32000, isCustom := some true, enabled := some true },
        { id := "my-model", vision := some true, isCustom := some true, enabled := some true },
        { id := "gpt-3.5", enabled := some false } ] }

/-- The openai row of `modelProviderListForModelSelect` on `userOpenAIStore`. -/
def openaiSelectedEntry : ModelProviderCard :=
  { id := "openai", enabled := some true,
    chatModels :=
      [ { id := "gpt-4", tokens := some 32000, isCustom := some true, enabled := some true },
        { id := "my-model", vision := some true, isCustom := some true, enabled := some true } ] }

theorem jsTruthy_eq_true {o : Option Bool} : jsTruthy o = true ↔ o = some true := by
  cases o <;> simp [jsTruthy]

theorem mem_uniqByIdAux {m : ChatModelCard} :
    ∀ (seen : List String) (l : List ChatModelCard),
      m ∈ uniqByIdAux seen l → m ∈ l ∧ m.id ∉ seen := by
  intro seen l
  induction l generalizing seen with
  | nil => simp [uniqByIdAux]
  | cons c cs ih =>
    intro h
    simp only [uniqByIdAux] at h
    by_cases hc : c.id ∈ seen
    · rw [if_pos hc] at h
      rcases ih seen h with ⟨h1, h2⟩
      exact ⟨List.mem_cons_of_mem _ h1, h2⟩
    · rw [if_neg hc] at h
      rcases List.mem_cons.mp h with rfl | h
      · exact ⟨List.mem_cons_self _ _, hc⟩
      · rcases ih _ h with ⟨h1, h2⟩
        exact ⟨List.mem_cons_of_mem _ h1,
          fun hmem => h2 (List.mem_cons_of_mem _ hmem)⟩

theorem nodup_ids_uniqByIdAux :
    ∀ (seen : List String) (l : List ChatModelCard),
      ((uniqByIdAux seen l).map (fun m => m.id)).Nodup := by
  intro seen l
  induction l generalizing seen with
  | nil => simp [uniqByIdAux]
  | cons c cs ih =>
    simp only [uniqByIdAux]
    by_cases hc : c.id ∈ seen
    · rw [if_pos hc]; exact ih seen
    · rw [if_neg hc]
      simp only [List.map_cons, List.nodup_cons]
      refine ⟨?_, ih _⟩
      intro hmem
      rcases List.mem_map.mp hmem with ⟨m, hm, hid⟩
      exact (mem_uniqByIdAux _ _ hm).2 (by rw [hid]; exact List.mem_cons_self _ _)

theorem mem_uniqByIdAux_append {m : ChatModelCard} :
    ∀ (seen : List String) (l₁ l₂ : List ChatModelCard),
      m ∈ uniqByIdAux seen (l₁ ++ l₂) →
      m ∈ l₁ ∨ (m ∈ l₂ ∧ ∀ u ∈ l₁, u.id ≠ m.id) := by
  intro seen l₁ l₂
  induction l₁ generalizing seen with
  | nil =>
    intro h
    exact Or.inr ⟨(mem_uniqByIdAux _ _ h).1, by simp⟩
  | cons c cs ih =>
    intro h
    simp only [List.cons_append, uniqByIdAux] at h
    by_cases hc : c.id ∈ seen
    · rw [if_pos hc] at h
      rcases ih seen h with h1 | ⟨h2, h3⟩
      · exact Or.inl (List.mem_cons_of_mem _ h1)
      · refine Or.inr ⟨h2, ?_⟩
        intro u hu
        rcases List.mem_cons.mp hu with rfl | hu
        · intro heq
          exact (mem_uniqByIdAux _ _ h).2 (heq ▸ hc)
        · exact h3 u hu
    · rw [if_neg hc] at h
      rcases List.mem_cons.mp h with rfl | h
      · exact Or.inl (List.mem_cons_self _ _)
      · rcases ih _ h with h1 | ⟨h2, h3⟩
        · exact Or.inl (List.mem_cons_of_mem _ h1)
        · refine Or.inr ⟨h2, ?_⟩
          intro u hu
          rcases List.mem_cons.mp hu with rfl | hu
          · intro heq
            exact (mem_uniqByIdAux _ _ h).2
              (by rw [heq]; exact List.mem_cons_self _ _)
          · exact h3 u hu

theorem id_reaches_uniqByIdAux {uid : String} :
    ∀ (seen : List String) (l : List ChatModelCard),
      (∃ x ∈ l, x.id = uid) → uid ∉ seen →
      ∃ m ∈ uniqByIdAux seen l, m.id = uid := by
  intro seen l
  induction l generalizing seen with
  | nil => rintro ⟨x, hx, _⟩ _; cases hx
  | cons c cs ih =>
    rintro ⟨x, hx, hxid⟩ hseen
    simp only [uniqByIdAux]
    by_cases hc : c.id ∈ seen
    · rw [if_pos hc]
      rcases List.mem_cons.mp hx with rfl | hx
      · exact absurd (hxid ▸ hc) hseen
      · exact ih seen ⟨x, hx, hxid⟩ hseen
    · rw [if_neg hc]
      by_cases hcu : c.id = uid
      · exact ⟨c, List.mem_cons_self _ _, hcu⟩
      · rcases List.mem_cons.mp hx with rfl | hx
        · exact absurd hxid hcu
        · have hnot : uid ∉ c.id :: seen := by
            intro hmem
            rcases List.mem_cons.mp hmem with h | h
            · exact hcu h.symm
            · exact hseen h
          rcases ih (c.id :: seen) ⟨x, hx, hxid⟩ hnot with ⟨m, hm, hmid⟩
          exact ⟨m, List.mem_cons_of_mem _ hm, hmid⟩

theorem defaultChatModelsOf_eq (c : Catalog) (hwf : WellFormedCatalog c) :
    defaultChatModelsOf c "openai" = c.OpenAIProviderCard.chatModels ∧
    defaultChatModelsOf c "azure" = c.AzureProviderCard.chatModels ∧
    defaultChatModelsOf c "ollama" = c.OllamaProviderCard.chatModels ∧
    defaultChatModelsOf c "anthropic" = c.AnthropicProviderCard.chatModels ∧
    defaultChatModelsOf c "google" = c.GoogleProviderCard.chatModels ∧
    defaultChatModelsOf c "openrouter" = c.OpenRouterProviderCard.chatModels ∧
    defaultChatModelsOf c "togetherai" = c.TogetherAIProviderCard.chatModels ∧
    defaultChatModelsOf c "bedrock" = c.BedrockProviderCard.chatModels ∧
    defaultChatModelsOf c "perplexity" = c.PerplexityProviderCard.chatModels ∧
    defaultChatModelsOf c "mistral" = c.MistralProviderCard.chatModels ∧
    defaultChatModelsOf c "groq" = c.GroqProviderCard.chatModels ∧
    defaultChatModelsOf c "moonshot" = c.MoonshotProviderCard.chatModels ∧
    defaultChatModelsOf c "zeroone" = c.ZeroOneProviderCard.chatModels ∧
    defaultChatModelsOf c "zhipu" = c.ZhiPuProviderCard.chatModels := by
  obtain ⟨h1, h2, h3, h4, h5, h6, h7, h8, h9, h10, h11, h12, h13, h14⟩ := hwf
  refine ⟨?_, ?_, ?_, ?_, ?_, ?_, ?_, ?_, ?_, ?_, ?_, ?_, ?_, ?_⟩ <;>
    simp [defaultChatModelsOf, catalogCards, List.find?, h1, h2, h3, h4, h5, h6, h7,
      h8, h9, h10, h11, h12, h13, h14]

/-- C1 (counterexample): with the concrete well-formed catalog and a store
whose server config supplies anthropic model cards, the anthropic entry of
the computed provider view does not obey the claimed server/remote/default
merge rule — `defaultModelProviderList` never merges the anthropic entry. -/
theorem claim_C1_merge_rule_counterexample :
    ¬ ∀ p ∈ defaultModelProviderList testCatalog serverAnthropicStore,
        MergeRuleClaim testCatalog serverAnthropicStore p := by
  decide

/-- C1 (amended): in the computed provider view of a well-formed catalog,
the server/remote/default merge rule applies exactly to the providers
openai, azure, ollama, openrouter and togetherai — with the empty list
rather than the built-in cards as azure's default — while every other
provider's chat models are its built-in default cards unchanged. -/
theorem claim_C1_merge_rule_amended (c : Catalog) (s : GlobalStore)
    (hwf : WellFormedCatalog c) :
    ∀ p ∈ defaultModelProviderList c s,
      (p.id ∈ mergedProviderIds →
        p.chatModels =
          mergeModels s p.id (if p.id = "azure" then [] else defaultChatModelsOf c p.id)) ∧
      (p.id ∉ mergedProviderIds → p.chatModels = defaultChatModelsOf c p.id) := by
  obtain ⟨e1, e2, e3, e4, e5, e6, e7, e8, e9, e10, e11, e12, e13, e14⟩ :=
    defaultChatModelsOf_eq c hwf
  obtain ⟨h1, h2, h3, h4, h5, h6, h7, h8, h9, h10, h11, h12, h13, h14⟩ := hwf
  intro p hp
  simp only [defaultModelProviderList, List.mem_cons, List.not_mem_nil, or_false] at hp
  rcases hp with rfl | rfl | rfl | rfl | rfl | rfl | rfl | rfl | rfl | rfl | rfl | rfl | rfl | rfl <;>
    constructor <;> intro hmem <;>
      simp_all [mergedProviderIds, h1, h2, h3, h4, h5, h6, h7, h8, h9, h10, h11, h12, h13, h14]

/-- C1 (witness for the amended theorem): on the concrete catalog and the
store with server-supplied anthropic cards, the anthropic entry keeps its
built-in default chat models. -/
theorem claim_C1_merge_rule_amended_witness :
    testCatalog.AnthropicProviderCard.chatModels =
      defaultChatModelsOf testCatalog testCatalog.AnthropicProviderCard.id :=
  (claim_C1_merge_rule_amended testCatalog serverAnthropicStore (by decide)
      testCatalog.AnthropicProviderCard (by decide)).2 (by decide)

/-- C2: for every catalog, provider id and store state, the cards returned
by `getModelCardsById` carry pairwise distinct model ids. -/
theorem claim_C2_model_ids_nodup (c : Catalog) (provider : String) (s : GlobalStore) :
    ((getModelCardsById c provider s).map (fun m => m.id)).Nodup := by
  unfold getModelCardsById uniqById
  exact nodup_ids_uniqByIdAux _ _

/-- C3: `modelProviderListForModelSelect` returns exactly the enabled
providers of `modelProviderList`, each with exactly its enabled chat
models: membership in the result is characterised by an enabled source
provider, and everything in the result is enabled. -/
theorem claim_C3_select_filters_enabled (c : Catalog) (s : GlobalStore) :
    (∀ p, p ∈ modelProviderListForModelSelect c s ↔
      ∃ q, q ∈ modelProviderList c s ∧ jsTruthy q.enabled = true ∧
        p = { q with chatModels := q.chatModels.filter (fun m => jsTruthy m.enabled) }) ∧
    ∀ p ∈ modelProviderListForModelSelect c s,
      jsTruthy p.enabled = true ∧ ∀ m ∈ p.chatModels, jsTruthy m.enabled = true := by
  constructor
  · intro p
    simp only [modelProviderListForModelSelect, List.mem_map, List.mem_filter]
    constructor
    · rintro ⟨q, ⟨hq, hqe⟩, rfl⟩
      exact ⟨q, hq, hqe, rfl⟩
    · rintro ⟨q, hq, hqe, rfl⟩
      exact ⟨q, ⟨hq, hqe⟩, rfl⟩
  · intro p hp
    simp only [modelProviderListForModelSelect, List.mem_map, List.mem_filter] at hp
    rcases hp with ⟨q, ⟨hq, hqe⟩, rfl⟩
    refine ⟨hqe, ?_⟩
    intro m hm
    exact (List.mem_filter.mp hm).2

/-- C3 (witness): the enabled openai provider, restricted to its enabled
models, is a member of the select view on the concrete user store. -/
theorem claim_C3_select_filters_enabled_witness :
    openaiSelectedEntry ∈ modelProviderListForModelSelect testCatalog userOpenAIStore :=
  ((claim_C3_select_filters_enabled testCatalog userOpenAIStore).1 openaiSelectedEntry).mpr
    ⟨openaiProcessedEntry, by decide, by decide, by decide⟩

/-- C4: every selector of `modelProviderSelectors`, run as a state
transition, is read-only — the store after the call is the store that was
passed in (the source only builds new objects, it never assigns to the
state). -/
theorem claim_C4_selectors_read_only (c : Catalog) (call : SelectorCall) (s : GlobalStore) :
    (applySelector c call s).2 = s := rfl

/-- C5: every selector is deterministic — on equal store snapshots the same
call yields equal outputs; the output depends only on the catalog and the
snapshot passed at call time. -/
theorem claim_C5_selectors_deterministic (c : Catalog) (call : SelectorCall)
    (s₁ s₂ : GlobalStore) (h : s₁ = s₂) :
    selectorOutput c call s₁ = selectorOutput c call s₂ := by
  rw [h]

/-- C5 (witness): instantiated at the concrete catalog, the
`modelProviderList` call and the empty store. -/
theorem claim_C5_selectors_deterministic_witness :
    selectorOutput testCatalog SelectorCall.modelProviderList emptyStore =
      selectorOutput testCatalog SelectorCall.modelProviderList emptyStore :=
  claim_C5_selectors_deterministic testCatalog SelectorCall.modelProviderList
    emptyStore emptyStore rfl

/-- C6: the selectors are total — every call returns a value on every
store — and on states where the server config, the provider config or the
model card is absent they return the documented defaults (`undefined`,
`false`, `0`) instead of failing. -/
theorem claim_C6_selectors_total (c : Catalog) (s : GlobalStore) (id provider : String)
    (hcfg : getProviderConfigById provider s = none)
    (hcard : getModelCardById c id s = none)
    (hserver : s.serverConfig.languageModel = none) :
    (∀ call, ∃ out, applySelector c call s = (out, s)) ∧
    serverProviderModelCards provider s = none ∧
    remoteProviderModelCards provider s = none ∧
    getEnableModelsById provider s = none ∧
    isProviderEnabled provider s = false ∧
    isModelEnabledFunctionCall c id s = false ∧
    isModelEnabledFiles c id s = none ∧
    isModelEnabledVision c id s = jsIncludes id "vision" ∧
    isModelEnabledUpload c id s = (if jsIncludes id "vision" then some true else none) ∧
    isModelHasMaxToken c id s = false ∧
    modelMaxToken c id s = 0 := by
  refine ⟨fun call => ⟨selectorOutput c call s, rfl⟩, ?_, ?_, ?_, ?_, ?_, ?_, ?_, ?_, ?_, ?_⟩
  · simp [serverProviderModelCards, hserver]
  · have : (currentSettings s).languageModel.bind (fun lm => lm.lookup provider) = none := hcfg
    simp [remoteProviderModelCards, this]
  · simp [getEnableModelsById, hcfg]
  · simp [isProviderEnabled, hcfg, jsTruthy]
  · simp [isModelEnabledFunctionCall, hcard, jsTruthy]
  · simp [isModelEnabledFiles, hcard]
  · simp [isModelEnabledVision, hcard, jsTruthy]
  · simp [isModelEnabledUpload, isModelEnabledVision, isModelEnabledFiles, hcard, jsTruthy]
  · simp [isModelHasMaxToken, hcard]
  · simp [modelMaxToken, hcard]

/-- C6 (witness): on the empty store with an unknown model id and provider
key, the defaults are returned. -/
theorem claim_C6_selectors_total_witness :
    serverProviderModelCards "nope" emptyStore = none ∧
    remoteProviderModelCards "nope" emptyStore = none ∧
    getEnableModelsById "nope" emptyStore = none ∧
    isProviderEnabled "nope" emptyStore = false ∧
    isModelEnabledFunctionCall testCatalog "nope" emptyStore = false ∧
    isModelEnabledFiles testCatalog "nope" emptyStore = none ∧
    isModelEnabledVision testCatalog "nope" emptyStore = jsIncludes "nope" "vision" ∧
    isModelEnabledUpload testCatalog "nope" emptyStore =
      (if jsIncludes "nope" "vision" then some true else none) ∧
    isModelHasMaxToken testCatalog "nope" emptyStore = false ∧
    modelMaxToken testCatalog "nope" emptyStore = 0 :=
  (claim_C6_selectors_total testCatalog emptyStore "nope" "nope"
    (by decide) (by decide) rfl).2

/-- C7: the capability selectors report exactly the card found by
`getModelCardById`: function calling holds iff that card has
`functionCall` true (false when no card is found); `isModelHasMaxToken`
holds iff the card defines a token limit; and `modelMaxToken` returns that
limit, or 0 when it is undefined or the card is absent. -/
theorem claim_C7_capability_selectors (c : Catalog) (id : String) (s : GlobalStore) :
    (isModelEnabledFunctionCall c id s = true ↔
      ∃ card, getModelCardById c id s = some card ∧ card.functionCall = some true) ∧
    (getModelCardById c id s = none → isModelEnabledFunctionCall c id s = false) ∧
    (isModelHasMaxToken c id s = true ↔
      ∃ card n, getModelCardById c id s = some card ∧ card.tokens = some n) ∧
    (∀ card n, getModelCardById c id s = some card → card.tokens = some n →
      modelMaxToken c id s = n) ∧
    (∀ card, getModelCardById c id s = some card → card.tokens = none →
      modelMaxToken c id s = 0) ∧
    (getModelCardById c id s = none → modelMaxToken c id s = 0) := by
  rcases h : getModelCardById c id s with _ | card
  · refine ⟨?_, ?_, ?_, ?_, ?_, ?_⟩ <;>
      simp [isModelEnabledFunctionCall, isModelHasMaxToken, modelMaxToken, h, jsTruthy]
  · refine ⟨?_, ?_, ?_, ?_, ?_, ?_⟩
    · simp [isModelEnabledFunctionCall, h, jsTruthy_eq_true]
    · intro hnone
      exact absurd hnone (by simp)
    · simp [isModelHasMaxToken, h, Option.isSome_iff_exists]
    · intro card' n hcard' hn
      cases hcard'
      simp [modelMaxToken, h, hn]
    · intro card' hcard' hn
      cases hcard'
      simp [modelMaxToken, h, hn]
    · intro hnone
      exact absurd hnone (by simp)

/-- C7 (witness): on the concrete user store, the custom gpt-4 card's
token limit is reported by `modelMaxToken`. -/
theorem claim_C7_capability_selectors_witness :
    modelMaxToken testCatalog "gpt-4" userOpenAIStore = 32000 :=
  (claim_C7_capability_selectors testCatalog "gpt-4" userOpenAIStore).2.2.2.1
    { id := "gpt-4", tokens := some 32000, isCustom := some true, enabled := some true }
    32000 (by decide) rfl

/-- C8: user-customized cards take precedence over built-in cards in
`getModelCardsById`: every custom card carries `isCustom` true, any
returned card whose id also occurs among the custom cards is the custom
card (not the built-in one), and every custom id is represented in the
returned list by an `isCustom` card. -/
theorem claim_C8_custom_cards_precedence (c : Catalog) (provider : String) (s : GlobalStore) :
    (∀ m ∈ customUserCards provider s, m.isCustom = some true) ∧
    (∀ m ∈ getModelCardsById c provider s,
      (∃ u ∈ customUserCards provider s, u.id = m.id) →
        m ∈ customUserCards provider s ∧ m.isCustom = some true) ∧
    (∀ u ∈ customUserCards provider s,
      ∃ m ∈ getModelCardsById c provider s, m.id = u.id ∧ m.isCustom = some true) := by
  have hcustom : ∀ m ∈ customUserCards provider s, m.isCustom = some true := by
    intro m hm
    rcases List.mem_map.mp hm with ⟨x, _, rfl⟩
    rfl
  have hkeep : ∀ m ∈ getModelCardsById c provider s,
      (∃ u ∈ customUserCards provider s, u.id = m.id) →
        m ∈ customUserCards provider s ∧ m.isCustom = some true := by
    intro m hm hex
    rcases hex with ⟨u, hu, huid⟩
    unfold getModelCardsById uniqById at hm
    rcases mem_uniqByIdAux_append _ _ _ hm with h1 | ⟨_, h3⟩
    · exact ⟨h1, hcustom m h1⟩
    · exact absurd huid (h3 u hu)
  refine ⟨hcustom, hkeep, ?_⟩
  intro u hu
  have hex : ∃ x ∈ customUserCards provider s ++ builtinCards c provider s, x.id = u.id :=
    ⟨u, List.mem_append_left _ hu, rfl⟩
  rcases id_reaches_uniqByIdAux [] _ hex (List.not_mem_nil _) with ⟨m, hm, hmid⟩
  have hm' : m ∈ getModelCardsById c provider s := hm
  exact ⟨m, hm', hmid, (hkeep m hm' ⟨u, hu, hmid.symm⟩).2⟩

/-- C8 (witness): on the concrete user store, the returned gpt-4 card is
the custom one (the colliding built-in gpt-4 card was dropped). -/
theorem claim_C8_custom_cards_precedence_witness :
    ({ id := "gpt-4", tokens := some 32000, isCustom := some true } : ChatModelCard) ∈
        customUserCards "openai" userOpenAIStore ∧
      ({ id := "gpt-4", tokens := some 32000, isCustom := some true } : ChatModelCard).isCustom =
        some true :=
  (claim_C8_custom_cards_precedence testCatalog "openai" userOpenAIStore).2.1
    { id := "gpt-4", tokens := some 32000, isCustom := some true } (by decide)
    ⟨{ id := "gpt-4", tokens := some 32000, isCustom := some true }, by decide, rfl⟩

/-- C9: for any model id containing the substring `vision`,
`isModelEnabledVision` is true on every store — even with no matching
card anywhere — and `isModelEnabledUpload` then returns true as well. -/
theorem claim_C9_vision_substring (c : Catalog) (id : String) (s : GlobalStore)
    (h : jsIncludes id "vision" = true) :
    isModelEnabledVision c id s = true ∧ isModelEnabledUpload c id s = some true := by
  have hv : isModelEnabledVision c id s = true := by
    unfold isModelEnabledVision
    rw [h, Bool.or_true]
  refine ⟨hv, ?_⟩
  unfold isModelEnabledUpload
  rw [hv]
  rfl

/-- C9 (witness): the id `llava-vision` has no card in the empty store,
yet both vision and upload report true. -/
theorem claim_C9_vision_substring_witness :
    isModelEnabledVision testCatalog "llava-vision" emptyStore = true ∧
      isModelEnabledUpload testCatalog "llava-vision" emptyStore = some true :=
  claim_C9_vision_substring testCatalog "llava-vision" emptyStore (by decide)

/-- C10: in `modelProviderList`, a provider whose config defines no
enabledModels list keeps its merged cards — enabled flags included —
unchanged; when the config defines an enabledModels list, each merged
card's enabled flag becomes exactly "its id occurs in that list after
dropping falsy entries". -/
theorem claim_C10_enabled_models_override (c : Catalog) (s : GlobalStore)
    (e : ModelProviderCard) (he : e ∈ modelProviderList c s) :
    (getEnableModelsById e.id s = none → e.chatModels = getModelCardsById c e.id s) ∧
    (∀ raw, (getProviderConfigById e.id s).bind (fun cfg => cfg.enabledModels) = some raw →
      e.chatModels = (getModelCardsById c e.id s).map (fun model =>
        { model with
          enabled := some ((filterBooleanStrings raw).any (fun m => m == model.id)) })) ∧
    (∀ raw, (getProviderConfigById e.id s).bind (fun cfg => cfg.enabledModels) = some raw →
      ∀ model ∈ e.chatModels,
        (jsTruthy model.enabled = true ↔ model.id ∈ filterBooleanStrings raw)) := by
  rcases List.mem_map.mp he with ⟨d, hd, rfl⟩
  have hid : ({ d with
      chatModels := (getModelCardsById c d.id s).map (fun model =>
        match getEnableModelsById d.id s with
        | none => model
        | some models =>
          { model with enabled := some (models.any (fun m => m == model.id)) }),
      enabled := some (isProviderEnabled d.id s) } : ModelProviderCard).id = d.id := rfl
  refine ⟨?_, ?_, ?_⟩
  · intro hnone
    rw [hid] at hnone
    simp only [hid, hnone]
    simp
  · intro raw hraw
    rw [hid] at hraw
    have hsome : getEnableModelsById d.id s = some (filterBooleanStrings raw) := by
      unfold getEnableModelsById
      rw [hraw]
    simp only [hid, hsome]
  · intro raw hraw model hmodel
    rw [hid] at hraw
    have hsome : getEnableModelsById d.id s = some (filterBooleanStrings raw) := by
      unfold getEnableModelsById
      rw [hraw]
    simp only [hsome, List.mem_map] at hmodel
    rcases hmodel with ⟨model0, _, rfl⟩
    simp [jsTruthy, List.any_eq_true]

/-- C10 (witness): the openai row of `modelProviderList` on the concrete
user store gets its enabled flags recomputed from the enabledModels list
after falsy entries are dropped. -/
theorem claim_C10_enabled_models_override_witness :
    openaiProcessedEntry.chatModels =
      (getModelCardsById testCatalog openaiProcessedEntry.id userOpenAIStore).map
        (fun model =>
          { model with
            enabled := some ((filterBooleanStrings
              [some "gpt-4", none, some "", some "my-model"]).any
                (fun m => m == model.id)) }) :=
  (claim_C10_enabled_models_override testCatalog userOpenAIStore openaiProcessedEntry
      (by decide)).2.1 [some "gpt-4", none, some "", some "my-model"] (by decide)
